import Mathlib

/-!
Shallow embedding of the Repairshop booking wizard (`RepairBooking`) and the
product carousel (`ProductCarousel`).  Pure state is modelled as explicit
records; each event handler of the source becomes a Lean function from the
old state to the new state (plus, where the source performs an external
effect, an explicit effect value).  JavaScript string truthiness is modelled
by comparison with the empty string, and the JavaScript `%` operator on
possibly-negative numbers by truncating remainder on `Int`.
-/

namespace Repairshop

/-- `Device` record (icon omitted: pure presentation). -/
structure Device where
  id : String
  name : String
  type : String
deriving Repr, DecidableEq

/-- `DeviceSubtype` record (icon omitted). -/
structure DeviceSubtype where
  id : String
  name : String
  parentType : String
deriving Repr, DecidableEq

/-- `Brand` record; only `name` is ever read by the logic under study. -/
structure Brand where
  name : String
deriving Repr, DecidableEq

/-- `RepairService`: `_id` is optional in the source (`_id?: string`). -/
structure RepairService where
  name : String
  estimatedCost : Nat
  description : String
  _id : Option String
deriving Repr, DecidableEq

/-- `RepairDocument` record. -/
structure RepairDocument where
  _id : String
  brand : String
  model : String
  repairOptions : List RepairService
deriving Repr, DecidableEq

/-- The `appointmentData` object of `useState`. -/
structure AppointmentData where
  date : String
  time : String
  name : String
  firstName : String
  email : String
  phone : String
deriving Repr, DecidableEq

/-- The blank appointment form used at initialisation and by `resetForm`. -/
def emptyAppointment : AppointmentData :=
  { date := "", time := "", name := "", firstName := "", email := "", phone := "" }

/-- The `isLoading` object of `useState`. -/
structure LoadingFlags where
  brands : Bool
  models : Bool
  submitting : Bool
deriving Repr, DecidableEq

/-- The mutable state of the `RepairBooking` component: one field per
`useState` hook that the booking logic reads or writes (`isMobile`, a pure
layout flag, is omitted). -/
structure BookingState where
  currentStep : Nat
  selectedDevice : Option Device
  selectedSubtype : Option DeviceSubtype
  selectedBrand : Option Brand
  selectedRepairDoc : Option RepairDocument
  selectedServices : List String
  searchTerm : String
  appointmentData : AppointmentData
  brands : List Brand
  repairDocs : List RepairDocument
  isLoading : LoadingFlags
  error : Option String
  showSuccessPopup : Bool
deriving Repr, DecidableEq

/-- The static `devices` array of the component. -/
def devices : List Device :=
  [ { id := "mobile", name := "Téléphone Mobile", type := "mobile" },
    { id := "laptop", name := "Ordinateur Portable", type := "laptop" } ]

/-- The static `deviceSubtypes` array of the component. -/
def deviceSubtypes : List DeviceSubtype :=
  [ { id := "mobile", name := "Téléphone Mobile", parentType := "mobile" },
    { id := "tablet", name := "Tablette", parentType := "mobile" },
    { id := "laptop", name := "Ordinateur Portable", parentType := "laptop" },
    { id := "console", name := "Console de Jeu", parentType := "laptop" } ]

/-- Initial component state.  The `deviceType` prop is optional
(`deviceType` is an optional prop); `useState(deviceType ? 2 : 1)` and
`devices.find(d => d.type === deviceType) || null`. -/
def initialState (deviceType : Option String) : BookingState :=
  { currentStep := if deviceType.isSome then 2 else 1
    selectedDevice :=
      match deviceType with
      | some t => devices.find? (fun d => d.type = t)
      | none => none
    selectedSubtype := none
    selectedBrand := none
    selectedRepairDoc := none
    selectedServices := []
    searchTerm := ""
    appointmentData := emptyAppointment
    brands := []
    repairDocs := []
    isLoading := { brands := false, models := false, submitting := false }
    error := none
    showSuccessPopup := false }

/-- `resetForm`: back to the entry step, keeping the device only when the
`deviceType` prop is present; every selection, the appointment form and the
search filter are cleared. -/
def resetForm (deviceType : Option String) (s : BookingState) : BookingState :=
  { s with
    currentStep := if deviceType.isSome then 2 else 1
    selectedDevice := if deviceType.isSome then s.selectedDevice else none
    selectedSubtype := none
    selectedBrand := none
    selectedRepairDoc := none
    selectedServices := []
    appointmentData := emptyAppointment
    searchTerm := "" }

/-- External effect of a `prevStep` call: either none, or the
`onBackToHome` callback was invoked (and the state left untouched). -/
inductive PrevStepEffect where
  | noEffect
  | backToHome
deriving Repr, DecidableEq

/-- `prevStep`.  `onBackToHome` is `true` when the optional callback prop was
supplied.  Mirrors the guard `currentStep > 1` of the source, the early return
through `onBackToHome` when the new step would be 1 and a `deviceType` prop
exists, and the per-step cascade of cleared selections; the search filter
is reset on every taken transition.  (The `history.replaceState` browser call is
outside the state model.) -/
def prevStep (deviceType : Option String) (onBackToHome : Bool)
    (s : BookingState) : PrevStepEffect × BookingState :=
  if s.currentStep > 1 then
    let newStep := s.currentStep - 1
    if newStep = 1 ∧ deviceType.isSome ∧ onBackToHome then
      (PrevStepEffect.backToHome, s)
    else
      let s₁ :=
        if newStep = 1 then
          { s with selectedDevice := none, selectedSubtype := none,
                   selectedBrand := none, selectedRepairDoc := none,
                   selectedServices := [] }
        else if newStep = 2 then
          { s with selectedSubtype := none, selectedBrand := none,
                   selectedRepairDoc := none, selectedServices := [] }
        else if newStep = 3 then
          { s with selectedBrand := none, selectedRepairDoc := none,
                   selectedServices := [] }
        else if newStep = 4 then
          { s with selectedRepairDoc := none, selectedServices := [] }
        else if newStep = 5 then
          { s with selectedServices := [] }
        else s
      (PrevStepEffect.noEffect,
        { s₁ with currentStep := newStep, searchTerm := "" })
  else (PrevStepEffect.noEffect, s)

/-- `nextStep`: guarded advance with search-filter reset (history push is a
browser effect outside the state model). -/
def nextStep (s : BookingState) : BookingState :=
  if s.currentStep < 6 then
    { s with currentStep := s.currentStep + 1, searchTerm := "" }
  else s

/-- `toggleService`: remove the identifier if present, append it otherwise. -/
def toggleService (serviceId : String) (prev : List String) : List String :=
  if prev.contains serviceId then
    prev.filter (fun id => id ≠ serviceId)
  else prev ++ [serviceId]

/-- One step of the `totalPrice` reducer: the identifier is looked up via
`selectedRepairDoc?.repairOptions.find(s => s._id === serviceId)`; a resolved
service adds its `estimatedCost`, anything else adds 0 (optional chaining on
a null document yields `undefined`, hence the 0 branch). -/
def totalPriceStep (selectedRepairDoc : Option RepairDocument)
    (total : Nat) (serviceId : String) : Nat :=
  match selectedRepairDoc with
  | none => total + 0
  | some doc =>
    match doc.repairOptions.find? (fun s => s._id = some serviceId) with
    | some service => total + service.estimatedCost
    | none => total + 0

/-- `totalPrice`: `selectedServices.reduce(..., 0)` with the step above. -/
def totalPrice (selectedServices : List String)
    (selectedRepairDoc : Option RepairDocument) : Nat :=
  selectedServices.foldl (totalPriceStep selectedRepairDoc) 0

/-- Outcome of the dispatch part of the brand loader: either a request is
issued for the mapped category, or the `Invalid subtype` error is thrown
before any network call. -/
inductive FetchDispatch where
  | request (category : String)
  | invalidSubtype
deriving Repr, DecidableEq

/-- The `switch(selectedSubtype.id)` category mapping inside `fetchBrands`:
each recognised subtype identifier maps to its category key, any other one
hits the default branch, which throws the Invalid subtype error before the
`fetch` call. -/
def fetchBrandsDispatch (subtypeId : String) : FetchDispatch :=
  if subtypeId = "mobile" then FetchDispatch.request "mobile"
  else if subtypeId = "tablet" then FetchDispatch.request "tablet"
  else if subtypeId = "laptop" then FetchDispatch.request "laptop"
  else if subtypeId = "console" then FetchDispatch.request "console"
  else FetchDispatch.invalidSubtype

/-- Result of an issued brand request: a parsed body, a non-success HTTP
response (`!response.ok`), or a transport failure. -/
inductive FetchResult (α : Type) where
  | ok (data : α)
  | httpError
  | networkError
deriving Repr, DecidableEq

/-- State update at the start of `fetchBrands`: busy flag on, error slot
cleared. -/
def fetchBrandsStart (s : BookingState) : BookingState :=
  { s with isLoading := { s.isLoading with brands := true }, error := none }

/-- State update when a brand request settles: `setBrands(data)` on success;
on either failure the catch block stores the Failed to load brands message
and touches nothing else; the `finally` block clears the busy flag. -/
def fetchBrandsFinish (res : FetchResult (List Brand))
    (s : BookingState) : BookingState :=
  match res with
  | FetchResult.ok data =>
    { s with brands := data, isLoading := { s.isLoading with brands := false } }
  | FetchResult.httpError =>
    { s with error := some "Failed to load brands",
             isLoading := { s.isLoading with brands := false } }
  | FetchResult.networkError =>
    { s with error := some "Failed to load brands",
             isLoading := { s.isLoading with brands := false } }

/-- Several in-flight brand requests settling in arrival order: the state
updates of `fetchBrandsFinish` are applied one after the other, with no
cancellation or staleness check anywhere in the source. -/
def settleBrandResponses (responses : List (FetchResult (List Brand)))
    (s : BookingState) : BookingState :=
  responses.foldl (fun st res => fetchBrandsFinish res st) s

/-- Outcome of the synchronous prefix of `handleSubmit`: either a validation
failure (the handler returns before `fetch`), or the handler reaches the
`fetch(...)` call that posts the appointment. -/
inductive SubmitAction where
  | abortedValidation
  | networkCall
deriving Repr, DecidableEq

/-- The validation prefix of `handleSubmit`: the falsy-field check over
date/time/name/email, then the `selectedRepairDoc` check; each failure sets
its single error message and returns with no network call.  On pass the
submitting flag goes up and the error slot is cleared, and the POST is
issued. -/
def handleSubmitValidate (s : BookingState) : SubmitAction × BookingState :=
  if s.appointmentData.date = "" ∨ s.appointmentData.time = "" ∨
      s.appointmentData.name = "" ∨ s.appointmentData.email = "" then
    (SubmitAction.abortedValidation,
      { s with error := some "Veuillez remplir tous les champs obligatoires" })
  else if s.selectedRepairDoc = none then
    (SubmitAction.abortedValidation,
      { s with error := some "Aucun document de réparation sélectionné" })
  else
    (SubmitAction.networkCall,
      { s with isLoading := { s.isLoading with submitting := true },
               error := none })

/-- The success branch of `handleSubmit`: `setShowSuccessPopup(true)` (the
3-second timer is then armed). -/
def handleSubmitSuccess (s : BookingState) : BookingState :=
  { s with showSuccessPopup := true }

/-- The timer callback armed on success: hide the popup, then `resetForm`. -/
def successTimeout (deviceType : Option String) (s : BookingState) :
    BookingState :=
  resetForm deviceType { s with showSuccessPopup := false }

/-! ### ProductCarousel -/

/-- JavaScript `%` on numbers: truncating remainder (the result takes the
sign of the dividend). -/
def jsRem (a b : Int) : Int := Int.tmod a b

/-- The fixed carousel page size. -/
def itemsToShow : Nat := 4

/-- `nextSlide` index update, for a product list of length `n`:
`(prev + itemsToShow) % products.length`. -/
def nextSlide (n : Nat) (prev : Int) : Int :=
  jsRem (prev + itemsToShow) n

/-- `prevSlide` index update, for a product list of length `n`:
`(prev - itemsToShow + products.length) % products.length`. -/
def prevSlide (n : Nat) (prev : Int) : Int :=
  jsRem (prev - itemsToShow + n) n

/-! ### Derived definitions used by the theorems -/

/-- Spec-side reading of the price of one selected identifier: the
`estimatedCost` of the service it resolves to in the current repair
document, and 0 when it does not resolve. -/
def resolvedCost (selectedRepairDoc : Option RepairDocument)
    (serviceId : String) : Nat :=
  match selectedRepairDoc with
  | none => 0
  | some doc =>
    match doc.repairOptions.find? (fun s => s._id = some serviceId) with
    | some service => service.estimatedCost
    | none => 0

/-- The repair document of the pricing example in the spec:
services with identifier a at cost 50 and identifier b at cost 30. -/
def exampleDoc : RepairDocument :=
  { _id := "doc", brand := "B", model := "M",
    repairOptions :=
      [ { name := "service a", estimatedCost := 50, description := "",
          _id := some "a" },
        { name := "service b", estimatedCost := 30, description := "",
          _id := some "b" } ] }

/-- A state holding one previously loaded brand, used to exercise the
failure path of the brand loader. -/
def sampleBrandsState : BookingState :=
  { initialState none with brands := [{ name := "Apple" }] }

/-- A submission-step state whose appointment form is complete except for an
empty date. -/
def sampleMissingDateState : BookingState :=
  { currentStep := 6
    selectedDevice := some { id := "mobile", name := "Téléphone Mobile",
                             type := "mobile" }
    selectedSubtype := some { id := "tablet", name := "Tablette",
                              parentType := "mobile" }
    selectedBrand := some { name := "Apple" }
    selectedRepairDoc := some exampleDoc
    selectedServices := ["a"]
    searchTerm := ""
    appointmentData := { date := "", time := "09:00", name := "Durand",
                         firstName := "Anne", email := "anne@example.com",
                         phone := "0600000000" }
    brands := [{ name := "Apple" }]
    repairDocs := [exampleDoc]
    isLoading := { brands := false, models := false, submitting := false }
    error := none
    showSuccessPopup := false }

/-- A mid-wizard state (step 4) with every selection populated, used to
exercise backward navigation. -/
def sampleFullState : BookingState :=
  { currentStep := 4
    selectedDevice := some { id := "mobile", name := "Téléphone Mobile",
                             type := "mobile" }
    selectedSubtype := some { id := "tablet", name := "Tablette",
                              parentType := "mobile" }
    selectedBrand := some { name := "Apple" }
    selectedRepairDoc := some exampleDoc
    selectedServices := ["a"]
    searchTerm := "ipad"
    appointmentData := { date := "2026-01-05", time := "09:00",
                         name := "Durand", firstName := "Anne",
                         email := "anne@example.com", phone := "0600000000" }
    brands := [{ name := "Apple" }]
    repairDocs := [exampleDoc]
    isLoading := { brands := false, models := false, submitting := false }
    error := none
    showSuccessPopup := false }

/-! ### Helper lemmas -/

lemma totalPriceStep_eq (doc : Option RepairDocument) (acc : Nat)
    (serviceId : String) :
    totalPriceStep doc acc serviceId = acc + resolvedCost doc serviceId := by
  cases doc with
  | none => simp [totalPriceStep, resolvedCost]
  | some d =>
    cases h : d.repairOptions.find? (fun s => s._id = some serviceId) with
    | none => simp [totalPriceStep, resolvedCost, h]
    | some service => simp [totalPriceStep, resolvedCost, h]

lemma totalPrice_go (doc : Option RepairDocument) :
    ∀ (sel : List String) (acc : Nat),
      sel.foldl (totalPriceStep doc) acc
        = acc + (sel.map (resolvedCost doc)).sum := by
  intro sel
  induction sel with
  | nil => intro acc; simp
  | cons hd tl ih =>
    intro acc
    simp only [List.foldl_cons, List.map_cons, List.sum_cons, ih,
      totalPriceStep_eq]
    omega

lemma toggleService_of_mem (s : String) (l : List String) (h : s ∈ l) :
    toggleService s l = l.filter (fun id => id ≠ s) := by
  simp [toggleService, h]

lemma toggleService_of_not_mem (s : String) (l : List String) (h : s ∉ l) :
    toggleService s l = l ++ [s] := by
  simp [toggleService, h]

/-! ### Claim theorems -/

/-- C1: retreating from any state N with 2 ≤ N ≤ 6 (and N > 2 whenever a
fixed device type is supplied) lands on state N−1 and clears exactly the
selections of the 4.1 table for that transition — device only for 2→1,
subtype for N ≤ 3, brand for N ≤ 4, repair document for N ≤ 5, services
always — while the appointment form, caches, flags and error slot are
untouched.  The equation fully characterises the new state, so nothing else
among the booking-state fields changes; the free-text search filter (not a
booking-state selection) is additionally reset, as the navigator spec
states for transitions. -/
theorem prevStep_spec (dt : Option String) (bh : Bool) (s : BookingState)
    (h2 : 2 ≤ s.currentStep) (h6 : s.currentStep ≤ 6)
    (hdt : dt.isSome = true → 2 < s.currentStep) :
    prevStep dt bh s = (PrevStepEffect.noEffect,
      { s with
        currentStep := s.currentStep - 1
        selectedDevice := if s.currentStep = 2 then none
          else s.selectedDevice
        selectedSubtype := if s.currentStep ≤ 3 then none
          else s.selectedSubtype
        selectedBrand := if s.currentStep ≤ 4 then none
          else s.selectedBrand
        selectedRepairDoc := if s.currentStep ≤ 5 then none
          else s.selectedRepairDoc
        selectedServices := []
        searchTerm := "" }) := by
  obtain ⟨step, dev, sub, br, doc, serv, term, app, brs, rds, il, er, pop⟩ := s
  dsimp only at h2 h6 hdt ⊢
  have hcases : step = 2 ∨ step = 3 ∨ step = 4 ∨ step = 5 ∨ step = 6 := by
    omega
  rcases hcases with rfl | rfl | rfl | rfl | rfl
  · cases dt with
    | none => rfl
    | some t => exact absurd (hdt rfl) (by omega)
  · rfl
  · rfl
  · rfl
  · rfl

/-- Witness for C1: retreat from step 4 of a fully populated state. -/
theorem prevStep_spec_witness :
    2 ≤ sampleFullState.currentStep ∧ sampleFullState.currentStep ≤ 6 ∧
    prevStep none false sampleFullState = (PrevStepEffect.noEffect,
      { sampleFullState with
        currentStep := sampleFullState.currentStep - 1
        selectedDevice := if sampleFullState.currentStep = 2 then none
          else sampleFullState.selectedDevice
        selectedSubtype := if sampleFullState.currentStep ≤ 3 then none
          else sampleFullState.selectedSubtype
        selectedBrand := if sampleFullState.currentStep ≤ 4 then none
          else sampleFullState.selectedBrand
        selectedRepairDoc := if sampleFullState.currentStep ≤ 5 then none
          else sampleFullState.selectedRepairDoc
        selectedServices := []
        searchTerm := "" }) :=
  ⟨by decide, by decide,
    prevStep_spec none false sampleFullState (by decide) (by decide)
      (by intro h; simp at h)⟩

/-- C2: the computed total price is the sum, over the selected identifiers,
of the cost of each identifier that resolves in the current repair document,
unresolved identifiers contributing zero; on the example document with
services a at 50 and b at 30, the selection with only a totals 50, the
selection with a and an absent c totals 50, and the empty selection totals
0. -/
theorem totalPrice_sum_of_resolved (sel : List String)
    (doc : Option RepairDocument) :
    totalPrice sel doc = (sel.map (resolvedCost doc)).sum ∧
    totalPrice ["a"] (some exampleDoc) = 50 ∧
    totalPrice ["a", "c"] (some exampleDoc) = 50 ∧
    totalPrice [] (some exampleDoc) = 0 := by
  refine ⟨?_, by decide, by decide, rfl⟩
  unfold totalPrice
  rw [totalPrice_go]
  simp

/-- C3: submission reaches the network call exactly when date, time, name
and email are non-empty and a repair document is selected; on a missing
required field it stores the single required-fields message and stops, on a
missing repair document it stores the single missing-document message and
stops, and in both failure cases the state is unchanged apart from that
error slot. -/
theorem handleSubmit_validation (s : BookingState) :
    (s.appointmentData.date = "" ∨ s.appointmentData.time = "" ∨
        s.appointmentData.name = "" ∨ s.appointmentData.email = "" →
      handleSubmitValidate s = (SubmitAction.abortedValidation,
        { s with
          error := some "Veuillez remplir tous les champs obligatoires" })) ∧
    (s.appointmentData.date ≠ "" → s.appointmentData.time ≠ "" →
        s.appointmentData.name ≠ "" → s.appointmentData.email ≠ "" →
        s.selectedRepairDoc = none →
      handleSubmitValidate s = (SubmitAction.abortedValidation,
        { s with
          error := some "Aucun document de réparation sélectionné" })) ∧
    ((handleSubmitValidate s).1 = SubmitAction.networkCall ↔
      (s.appointmentData.date ≠ "" ∧ s.appointmentData.time ≠ "" ∧
        s.appointmentData.name ≠ "" ∧ s.appointmentData.email ≠ "" ∧
        s.selectedRepairDoc ≠ none)) := by
  refine ⟨?_, ?_, ?_⟩
  · intro h
    unfold handleSubmitValidate
    rw [if_pos h]
  · intro h1 h2 h3 h4 h5
    unfold handleSubmitValidate
    rw [if_neg (by tauto), if_pos h5]
  · unfold handleSubmitValidate
    by_cases hv : s.appointmentData.date = "" ∨ s.appointmentData.time = "" ∨
        s.appointmentData.name = "" ∨ s.appointmentData.email = ""
    · rw [if_pos hv]
      constructor
      · intro h; cases h
      · intro h; tauto
    · rw [if_neg hv]
      by_cases hd : s.selectedRepairDoc = none
      · rw [if_pos hd]
        constructor
        · intro h; cases h
        · intro h; exact absurd hd h.2.2.2.2
      · rw [if_neg hd]
        constructor
        · intro _; push_neg at hv; tauto
        · intro _; rfl

/-- Witness for C3: empty date with everything else filled gives the
validation error, no network call, and only the error slot changes. -/
theorem handleSubmit_validation_witness :
    sampleMissingDateState.appointmentData.date = "" ∧
    handleSubmitValidate sampleMissingDateState
      = (SubmitAction.abortedValidation,
        { sampleMissingDateState with
          error := some "Veuillez remplir tous les champs obligatoires" }) :=
  ⟨rfl, (handleSubmit_validation sampleMissingDateState).1 (Or.inl rfl)⟩

/-- C4 counterexample: after a failed brand load on a state holding one
brand, the brand list is NOT emptied — it still holds that brand — so the
empty-list behaviour the claim asserts does not occur; the error is set as
claimed. -/
theorem fetchBrands_failure_keeps_list_cex :
    (fetchBrandsFinish FetchResult.httpError sampleBrandsState).brands
        = [{ name := "Apple" }] ∧
    (fetchBrandsFinish FetchResult.httpError sampleBrandsState).brands ≠ [] ∧
    (fetchBrandsFinish FetchResult.httpError sampleBrandsState).error
        = some "Failed to load brands" := by
  refine ⟨rfl, by decide, rfl⟩

/-- C4 amended: when a brand load fails (transport error or non-success
HTTP response), the loader sets the user-facing error and leaves the brand
list exactly as it was — the prior list is preserved stale, with no
empty-array fallback. -/
theorem fetchBrandsFinish_failure_preserves (s : BookingState) :
    (fetchBrandsFinish FetchResult.httpError s).brands = s.brands ∧
    (fetchBrandsFinish FetchResult.httpError s).error
        = some "Failed to load brands" ∧
    (fetchBrandsFinish FetchResult.networkError s).brands = s.brands ∧
    (fetchBrandsFinish FetchResult.networkError s).error
        = some "Failed to load brands" :=
  ⟨rfl, rfl, rfl, rfl⟩

/-- C5: each of the four valid subtype identifiers is mapped to the
category key equal to itself — hence a key in the set mobile, tablet,
laptop, console — and the brand request is issued for that category; any
other identifier hits the invalid-subtype failure before any request. -/
theorem fetchBrandsDispatch_spec (subtypeId : String) :
    (subtypeId = "mobile" ∨ subtypeId = "tablet" ∨ subtypeId = "laptop" ∨
        subtypeId = "console" →
      fetchBrandsDispatch subtypeId = FetchDispatch.request subtypeId) ∧
    (subtypeId ≠ "mobile" → subtypeId ≠ "tablet" → subtypeId ≠ "laptop" →
        subtypeId ≠ "console" →
      fetchBrandsDispatch subtypeId = FetchDispatch.invalidSubtype) := by
  constructor
  · rintro (rfl | rfl | rfl | rfl) <;> rfl
  · intro h1 h2 h3 h4
    simp [fetchBrandsDispatch, h1, h2, h3, h4]

/-- Witness for C5: tablet dispatches a request for category tablet, an
unknown identifier fails before any request. -/
theorem fetchBrandsDispatch_spec_witness :
    fetchBrandsDispatch "tablet" = FetchDispatch.request "tablet" ∧
    fetchBrandsDispatch "smartwatch" = FetchDispatch.invalidSubtype :=
  ⟨(fetchBrandsDispatch_spec "tablet").1 (Or.inr (Or.inl rfl)),
    (fetchBrandsDispatch_spec "smartwatch").2 (by decide) (by decide)
      (by decide) (by decide)⟩

/-- C6: after the success acknowledgment and the timed callback, the
session is fully reset: step 2 with the device kept when a fixed device
type was supplied, otherwise step 1 with the device cleared; subtype,
brand, repair document, services, appointment form and search filter are
all cleared and the popup is hidden, everything else untouched. -/
theorem submitSuccess_reset (dt : Option String) (s : BookingState) :
    successTimeout dt (handleSubmitSuccess s) =
      { s with
        currentStep := if dt.isSome then 2 else 1
        selectedDevice := if dt.isSome then s.selectedDevice else none
        selectedSubtype := none
        selectedBrand := none
        selectedRepairDoc := none
        selectedServices := []
        appointmentData := emptyAppointment
        searchTerm := ""
        showSuccessPopup := false } := by
  cases dt <;> rfl

/-- C7: with a fixed device type supplied (mobile or laptop), the wizard
starts in state 2 with the matching device preselected, and retreating from
state 2 with the return-to-caller callback supplied triggers that callback
and leaves the state untouched instead of reverting to state 1. -/
theorem fixedDeviceType_spec (t : String) (s : BookingState)
    (ht : t = "mobile" ∨ t = "laptop") (hs : s.currentStep = 2) :
    (initialState (some t)).currentStep = 2 ∧
    ((initialState (some t)).selectedDevice.map Device.type) = some t ∧
    prevStep (some t) true s = (PrevStepEffect.backToHome, s) := by
  refine ⟨rfl, ?_, ?_⟩
  · rcases ht with rfl | rfl <;> rfl
  · simp [prevStep, hs]

/-- Witness for C7: fixed mobile device type, retreat from its own initial
state. -/
theorem fixedDeviceType_spec_witness :
    (initialState (some "mobile")).currentStep = 2 ∧
    ((initialState (some "mobile")).selectedDevice.map Device.type)
      = some "mobile" ∧
    prevStep (some "mobile") true (initialState (some "mobile"))
      = (PrevStepEffect.backToHome, initialState (some "mobile")) :=
  fixedDeviceType_spec "mobile" (initialState (some "mobile"))
    (Or.inl rfl) rfl

/-- C8 counterexample: with the mobile request still in flight when the
subtype switches to laptop, the interleaving in which the laptop response
(the Dell list) settles first and the stale mobile response (the Samsung
list) settles last leaves the final brand list equal to the stale mobile
data, not to the list matching the latest subtype — refuting the claim for
this interleaving. -/
theorem brandRace_stale_overwrite_cex :
    (settleBrandResponses
        [FetchResult.ok [{ name := "Dell" }],
         FetchResult.ok [{ name := "Samsung" }]]
        (initialState none)).brands ≠ [{ name := "Dell" }] ∧
    (settleBrandResponses
        [FetchResult.ok [{ name := "Dell" }],
         FetchResult.ok [{ name := "Samsung" }]]
        (initialState none)).brands = [{ name := "Samsung" }] := by
  refine ⟨by decide, rfl⟩

/-- C8 amended: with two brand responses in flight and no cancellation,
whichever response settles last determines the final brand list, for either
settling order; the list matches the latest subtype only in the
interleaving where that response settles last. -/
theorem brandRace_last_write_wins (s : BookingState)
    (staleData latestData : List Brand) :
    (settleBrandResponses
        [FetchResult.ok staleData, FetchResult.ok latestData] s).brands
      = latestData ∧
    (settleBrandResponses
        [FetchResult.ok latestData, FetchResult.ok staleData] s).brands
      = staleData :=
  ⟨rfl, rfl⟩

/-- C9 counterexample: on the duplicate-free selection with a then b,
toggling a twice returns b then a — a permutation, not the original list —
so toggle is not an involution on lists. -/
theorem toggleService_involution_cex :
    toggleService "a" (toggleService "a" ["a", "b"]) ≠ ["a", "b"] ∧
    toggleService "a" (toggleService "a" ["a", "b"]) = ["b", "a"] := by
  decide

/-- C9 amended: on a duplicate-free selection, toggling removes the
identifier when present (dropping every occurrence) and appends it when
absent, the result is again duplicate-free, and toggling the same
identifier twice yields a selection with exactly the same members as the
original — equal as sets, and equal as lists whenever the identifier was
absent. -/
theorem toggleService_twice_spec (l : List String) (s : String)
    (h : l.Nodup) :
    (s ∈ l → toggleService s l = l.filter (fun id => id ≠ s)) ∧
    (s ∉ l → toggleService s l = l ++ [s]) ∧
    (toggleService s l).Nodup ∧
    (∀ x, x ∈ toggleService s (toggleService s l) ↔ x ∈ l) ∧
    (toggleService s (toggleService s l)).Nodup ∧
    (s ∉ l → toggleService s (toggleService s l) = l) := by
  by_cases hs : s ∈ l
  · have h1 : toggleService s l = l.filter (fun id => id ≠ s) :=
      toggleService_of_mem s l hs
    have hsn : s ∉ l.filter (fun id => id ≠ s) := by simp
    have h2 : toggleService s (toggleService s l)
        = l.filter (fun id => id ≠ s) ++ [s] := by
      rw [h1, toggleService_of_not_mem s _ hsn]
    refine ⟨fun _ => h1, fun hc => absurd hs hc, ?_, ?_, ?_,
      fun hc => absurd hs hc⟩
    · rw [h1]; exact h.filter _
    · intro x
      rw [h2]
      simp only [List.mem_append, List.mem_filter, List.mem_singleton,
        decide_eq_true_eq]
      constructor
      · rintro (⟨hx, _⟩ | rfl)
        · exact hx
        · exact hs
      · intro hx
        by_cases hxs : x = s
        · exact Or.inr hxs
        · exact Or.inl ⟨hx, hxs⟩
    · rw [h2]
      exact (h.filter _).append (List.nodup_singleton s)
        (by intro a ha hb; simp at ha hb; exact ha.2 hb)
  · have h1 : toggleService s l = l ++ [s] := toggleService_of_not_mem s l hs
    have hmem : s ∈ l ++ [s] := by simp
    have h2 : toggleService s (toggleService s l) = l := by
      rw [h1, toggleService_of_mem s _ hmem, List.filter_append]
      have hl : l.filter (fun id => id ≠ s) = l :=
        List.filter_eq_self.mpr (fun a ha => by
          simp only [decide_eq_true_eq]
          exact fun has => hs (has ▸ ha))
      have hsingle : ([s] : List String).filter (fun id => id ≠ s) = [] := by
        simp
      rw [hl, hsingle, List.append_nil]
    refine ⟨fun hc => absurd hc hs, fun _ => h1, ?_, ?_, ?_, fun _ => h2⟩
    · rw [h1]
      exact h.append (List.nodup_singleton s)
        (by intro a ha hb; simp at hb; exact hs (hb ▸ ha))
    · intro x; rw [h2]
    · rw [h2]; exact h

/-- Witness for C9 amended: the selection with a then b, toggling a
twice. -/
theorem toggleService_twice_spec_witness :
    (["a", "b"] : List String).Nodup ∧
    (toggleService "a" (toggleService "a" ["a", "b"])).Nodup ∧
    ("b" ∈ toggleService "a" (toggleService "a" ["a", "b"]) ↔
      "b" ∈ (["a", "b"] : List String)) :=
  ⟨by decide,
    (toggleService_twice_spec ["a", "b"] "a" (by decide)).2.2.2.2.1,
    (toggleService_twice_spec ["a", "b"] "a" (by decide)).2.2.2.1 "b"⟩

/-- C10 counterexample: with 2 products and index 1, advancing wraps back
to 1 but then retreating lands on −1, which is neither the original index
nor inside the range 0 ≤ i < 2 — the JavaScript remainder is negative
here. -/
theorem carousel_roundTrip_cex :
    nextSlide 2 1 = 1 ∧ prevSlide 2 (nextSlide 2 1) = -1 ∧
    prevSlide 2 1 = -1 ∧ ¬(0 ≤ prevSlide 2 1) := by decide

/-- C10 amended: for a product list of length at least the page size
itemsToShow = 4 and any index 0 ≤ i < n, advancing and retreating each
stay inside the range 0 ≤ i < n by modular wraparound, and each operation
followed by the other returns the original index. -/
theorem carousel_slide_spec (n : Nat) (i : Int)
    (hn : itemsToShow ≤ n) (h0 : 0 ≤ i) (hi : i < (n : Int)) :
    0 ≤ nextSlide n i ∧ nextSlide n i < (n : Int) ∧
    0 ≤ prevSlide n i ∧ prevSlide n i < (n : Int) ∧
    prevSlide n (nextSlide n i) = i ∧
    nextSlide n (prevSlide n i) = i := by
  have hn4 : (4 : Int) ≤ (n : Int) := by
    have h4 : (itemsToShow : Int) ≤ (n : Int) := by exact_mod_cast hn
    simpa [itemsToShow] using h4
  have hnpos : (0 : Int) < (n : Int) := by omega
  have hnne : (n : Int) ≠ 0 := by omega
  have hits : ((itemsToShow : Nat) : Int) = 4 := by norm_num [itemsToShow]
  have hnext : ∀ j : Int, 0 ≤ j →
      nextSlide n j = (j + 4) % (n : Int) := by
    intro j hj
    unfold nextSlide jsRem
    rw [hits, Int.tmod_eq_emod (by omega) (by omega)]
  have hprev : ∀ j : Int, 0 ≤ j →
      prevSlide n j = (j - 4 + (n : Int)) % (n : Int) := by
    intro j hj
    unfold prevSlide jsRem
    rw [hits, Int.tmod_eq_emod (by omega) (by omega)]
  have hx0 : 0 ≤ (i + 4) % (n : Int) := Int.emod_nonneg _ hnne
  have hxlt : (i + 4) % (n : Int) < (n : Int) := Int.emod_lt_of_pos _ hnpos
  have hy0 : 0 ≤ (i - 4 + (n : Int)) % (n : Int) := Int.emod_nonneg _ hnne
  have hylt : (i - 4 + (n : Int)) % (n : Int) < (n : Int) :=
    Int.emod_lt_of_pos _ hnpos
  have hiota : i % (n : Int) = i := Int.emod_eq_of_lt h0 hi
  refine ⟨?_, ?_, ?_, ?_, ?_, ?_⟩
  · rw [hnext i h0]; exact hx0
  · rw [hnext i h0]; exact hxlt
  · rw [hprev i h0]; exact hy0
  · rw [hprev i h0]; exact hylt
  · rw [hnext i h0, hprev _ hx0]
    have e1 : (i + 4) % (n : Int) - 4 + (n : Int)
        = (i + 4) % (n : Int) + ((n : Int) - 4) := by ring
    rw [e1, Int.emod_add_emod]
    have e2 : i + 4 + ((n : Int) - 4) = i + (n : Int) * 1 := by ring
    rw [e2, Int.add_mul_emod_self_left, hiota]
  · rw [hprev i h0, hnext _ hy0, Int.emod_add_emod]
    have e3 : i - 4 + (n : Int) + 4 = i + (n : Int) * 1 := by ring
    rw [e3, Int.add_mul_emod_self_left, hiota]

/-- Witness for C10 amended: eight products, index 3. -/
theorem carousel_slide_spec_witness :
    itemsToShow ≤ 8 ∧ (0 : Int) ≤ 3 ∧ (3 : Int) < ((8 : Nat) : Int) ∧
    (0 ≤ nextSlide 8 3 ∧ nextSlide 8 3 < ((8 : Nat) : Int) ∧
      0 ≤ prevSlide 8 3 ∧ prevSlide 8 3 < ((8 : Nat) : Int) ∧
      prevSlide 8 (nextSlide 8 3) = 3 ∧
      nextSlide 8 (prevSlide 8 3) = 3) :=
  ⟨by decide, by decide, by decide,
    carousel_slide_spec 8 3 (by decide) (by decide) (by decide)⟩

end Repairshop
